import Mathlib

/-!
Shallow embedding of `nannou/src/wgpu/render_pass.rs`: the render-pass
descriptor builders (color-attachment builder, depth/stencil builder, root
builder) and their terminal operations `into_inner` and `begin`.

The texture-view handle type is kept abstract as a type parameter `V`
(descriptors hold non-owning references; the embedding only ever moves these
values around, so an opaque type is faithful). The `wgpu` value types
(`LoadOp`, `Operations`, `Color`) come from the external binding layer; they
are plain data and are reproduced structurally, with the floating-point
sample values modelled as rationals (the code performs no arithmetic on
them, only stores the constants 0 and 1).
-/

set_option autoImplicit false

namespace RenderPassSpec

/-- Modelled from the spec: the color value type of the binding layer
(`wgpu::Color`, four floating-point channels). No arithmetic is performed on
it; channels are modelled as rationals. -/
structure Color where
  r : Rat
  g : Rat
  b : Rat
  a : Rat
  deriving DecidableEq

/-- Modelled from the spec: `wgpu::Color::TRANSPARENT`, fully-transparent
black (all four channels zero). -/
def Color.TRANSPARENT : Color := { r := 0, g := 0, b := 0, a := 0 }

/-- Modelled from the spec: `LoadAction<T>` is either "clear to value T" or
"load existing contents" (`wgpu::LoadOp`). -/
inductive LoadOp (T : Type) where
  | Clear : T → LoadOp T
  | Load : LoadOp T
  deriving DecidableEq

/-- Modelled from the spec: `AttachmentOperations<T>` is a pair
`{load: LoadAction<T>, store: bool}` (`wgpu::Operations`). -/
structure Operations (T : Type) where
  load : LoadOp T
  store : Bool
  deriving DecidableEq

/-- Modelled from the spec: `ColorAttachmentDescriptor` holds the attachment
view reference, an optional resolve-target view reference, and the color
operations (`wgpu::RenderPassColorAttachmentDescriptor`). -/
structure RenderPassColorAttachmentDescriptor (V : Type) where
  attachment : V
  resolve_target : Option V
  ops : Operations Color
  deriving DecidableEq

/-- Modelled from the spec: `DepthStencilAttachmentDescriptor` holds the
attachment view reference and optional depth and stencil operations
(`wgpu::RenderPassDepthStencilAttachmentDescriptor`); the depth sample type
is a float (modelled as `Rat`), the stencil sample type an unsigned integer
(modelled as `Nat`). -/
structure RenderPassDepthStencilAttachmentDescriptor (V : Type) where
  attachment : V
  depth_ops : Option (Operations Rat)
  stencil_ops : Option (Operations Nat)
  deriving DecidableEq

/-- `ColorAttachmentDescriptorBuilder` from `render_pass.rs`: wraps the
descriptor under construction. -/
structure ColorAttachmentDescriptorBuilder (V : Type) where
  descriptor : RenderPassColorAttachmentDescriptor V
  deriving DecidableEq

namespace ColorAttachmentDescriptorBuilder

variable {V : Type}

/-- `ColorAttachmentDescriptorBuilder::DEFAULT_OPS`: clear to transparent,
store. -/
def DEFAULT_OPS : Operations Color :=
  { load := LoadOp.Clear Color.TRANSPARENT, store := true }

/-- `ColorAttachmentDescriptorBuilder::new`: no resolve target, default
operations. -/
def new (attachment : V) : ColorAttachmentDescriptorBuilder V :=
  { descriptor :=
      { attachment := attachment
        resolve_target := none
        ops := DEFAULT_OPS } }

/-- `ColorAttachmentDescriptorBuilder::resolve_target`: stores
`target.map(|t| &**t)`; the deref from the binding layer's view wrapper to
the raw handle is modelled as the identity (the wrapper type lives outside
`src/`). -/
def resolve_target (self : ColorAttachmentDescriptorBuilder V)
    (target : Option V) : ColorAttachmentDescriptorBuilder V :=
  { self with descriptor :=
      { self.descriptor with resolve_target := target.map (fun t => t) } }

/-- `ColorAttachmentDescriptorBuilder::resolve_target_handle`: stores the
given optional handle directly. -/
def resolve_target_handle (self : ColorAttachmentDescriptorBuilder V)
    (target : Option V) : ColorAttachmentDescriptorBuilder V :=
  { self with descriptor :=
      { self.descriptor with resolve_target := target } }

/-- `ColorAttachmentDescriptorBuilder::ops`: overrides the operations
wholesale. -/
def ops (self : ColorAttachmentDescriptorBuilder V)
    (o : Operations Color) : ColorAttachmentDescriptorBuilder V :=
  { self with descriptor := { self.descriptor with ops := o } }

end ColorAttachmentDescriptorBuilder

/-- `DepthStencilAttachmentDescriptorBuilder` from `render_pass.rs`. -/
structure DepthStencilAttachmentDescriptorBuilder (V : Type) where
  descriptor : RenderPassDepthStencilAttachmentDescriptor V
  deriving DecidableEq

namespace DepthStencilAttachmentDescriptorBuilder

variable {V : Type}

/-- `DepthStencilAttachmentDescriptorBuilder::DEFAULT_DEPTH_OPS`: clear to
1.0, store. -/
def DEFAULT_DEPTH_OPS : Operations Rat :=
  { load := LoadOp.Clear 1, store := true }

/-- `DepthStencilAttachmentDescriptorBuilder::DEFAULT_STENCIL_OPS`: clear to
0, store. -/
def DEFAULT_STENCIL_OPS : Operations Nat :=
  { load := LoadOp.Clear 0, store := true }

/-- `DepthStencilAttachmentDescriptorBuilder::new`: both default operation
sets present. -/
def new (attachment : V) : DepthStencilAttachmentDescriptorBuilder V :=
  { descriptor :=
      { attachment := attachment
        depth_ops := some DEFAULT_DEPTH_OPS
        stencil_ops := some DEFAULT_STENCIL_OPS } }

/-- Modelled from the spec: "`depth_ops(optional operations)`: overrides or
disables depth operations entirely". The setter in
`src/nannou/src/wgpu/render_pass.rs` declares a non-optional parameter
`ops: wgpu::Operations<f32>` and assigns it directly to the `depth_ops`
field, but `new` initialises that same field with `Some(..)`, so no field
type makes both assignments well-typed; the optional parameter of the spec
is taken as the intent. -/
def depth_ops (self : DepthStencilAttachmentDescriptorBuilder V)
    (o : Option (Operations Rat)) : DepthStencilAttachmentDescriptorBuilder V :=
  { self with descriptor := { self.descriptor with depth_ops := o } }

/-- Modelled from the spec: "`stencil_ops(optional operations)`: same,
independently, for stencil"; the source setter has the same type slip as
`depth_ops`. -/
def stencil_ops (self : DepthStencilAttachmentDescriptorBuilder V)
    (o : Option (Operations Nat)) : DepthStencilAttachmentDescriptorBuilder V :=
  { self with descriptor := { self.descriptor with stencil_ops := o } }

end DepthStencilAttachmentDescriptorBuilder

/-- The root `Builder` from `render_pass.rs`: accumulated color attachments
(in call order) and the optional depth/stencil attachment. -/
structure Builder (V : Type) where
  color_attachments : List (RenderPassColorAttachmentDescriptor V)
  depth_stencil_attachment : Option (RenderPassDepthStencilAttachmentDescriptor V)
  deriving DecidableEq

/-- Modelled from the spec: the final pass configuration handed to the
backend, "an ordered list of color-attachment descriptors and an optional
depth/stencil-attachment descriptor" (`wgpu::RenderPassDescriptor`). -/
structure RenderPassDescriptor (V : Type) where
  color_attachments : List (RenderPassColorAttachmentDescriptor V)
  depth_stencil_attachment : Option (RenderPassDepthStencilAttachmentDescriptor V)
  deriving DecidableEq

/-- Modelled from the spec: the command encoder is an opaque external
collaborator; the only behaviour visible to this layer is its
begin-render-pass entry point, an arbitrary function from the assembled
descriptor to a backend-provided pass handle of opaque type `P`. -/
structure CommandEncoder (V : Type) (P : Type) where
  begin_render_pass : RenderPassDescriptor V → P

namespace Builder

variable {V : Type} {P : Type}

/-- `Builder::new` (via `Default`): empty color-attachment list, no
depth/stencil attachment. -/
def new : Builder V :=
  { color_attachments := [], depth_stencil_attachment := none }

/-- `Builder::color_attachment`: builds a fresh leaf builder on the view,
passes it through the caller's configuration function, and pushes the
resulting descriptor onto the end of the list. -/
def color_attachment (self : Builder V) (attachment : V)
    (color_builder : ColorAttachmentDescriptorBuilder V →
      ColorAttachmentDescriptorBuilder V) : Builder V :=
  let builder := ColorAttachmentDescriptorBuilder.new attachment
  let descriptor := (color_builder builder).descriptor
  { self with color_attachments := self.color_attachments ++ [descriptor] }

/-- `Builder::depth_stencil_attachment` (primed to avoid the clash with the
field projection of the same name): builds a fresh leaf builder on the view,
passes it through the caller's configuration function, and overwrites the
depth/stencil slot with `Some` of the resulting descriptor. -/
def depth_stencil_attachment' (self : Builder V) (attachment : V)
    (depth_stencil_builder : DepthStencilAttachmentDescriptorBuilder V →
      DepthStencilAttachmentDescriptorBuilder V) : Builder V :=
  let builder := DepthStencilAttachmentDescriptorBuilder.new attachment
  let descriptor := (depth_stencil_builder builder).descriptor
  { self with depth_stencil_attachment := some descriptor }

/-- `Builder::into_inner`: destructures the builder and returns the pair. -/
def into_inner (self : Builder V) :
    List (RenderPassColorAttachmentDescriptor V) ×
      Option (RenderPassDepthStencilAttachmentDescriptor V) :=
  (self.color_attachments, self.depth_stencil_attachment)

/-- `Builder::begin`: extracts the two collections, assembles the final
descriptor, and hands it to the encoder's begin-render-pass entry point,
returning the backend-provided pass handle unchanged. -/
def begin (self : Builder V) (encoder : CommandEncoder V P) : P :=
  match self.into_inner with
  | (ca, dsa) =>
    encoder.begin_render_pass
      { color_attachments := ca, depth_stencil_attachment := dsa }

end Builder

/-- A single call to the root builder: either add a color attachment or set
the depth/stencil attachment, each carrying the view reference and the
caller's configuration function. -/
inductive BuilderCall (V : Type) where
  | color : V → (ColorAttachmentDescriptorBuilder V →
      ColorAttachmentDescriptorBuilder V) → BuilderCall V
  | depthStencil : V → (DepthStencilAttachmentDescriptorBuilder V →
      DepthStencilAttachmentDescriptorBuilder V) → BuilderCall V

variable {V : Type}

/-- Apply one root-builder call. -/
def applyCall (b : Builder V) : BuilderCall V → Builder V
  | BuilderCall.color v f => b.color_attachment v f
  | BuilderCall.depthStencil v f => b.depth_stencil_attachment' v f

/-- Apply a sequence of root-builder calls, left to right. -/
def applyCalls (b : Builder V) (cs : List (BuilderCall V)) : Builder V :=
  cs.foldl applyCall b

/-- The descriptor that a color-attachment call (view, configuration
function) produces: the configured fresh leaf builder's descriptor. -/
def colorCallDescriptor
    (c : V × (ColorAttachmentDescriptorBuilder V →
      ColorAttachmentDescriptorBuilder V)) :
    RenderPassColorAttachmentDescriptor V :=
  (c.2 (ColorAttachmentDescriptorBuilder.new c.1)).descriptor

/-- Apply a sequence of color-attachment calls, left to right. -/
def applyColorCalls (b : Builder V)
    (cs : List (V × (ColorAttachmentDescriptorBuilder V →
      ColorAttachmentDescriptorBuilder V))) : Builder V :=
  cs.foldl (fun b c => b.color_attachment c.1 c.2) b

/-- The descriptor produced by a root-builder call when it is a
depth/stencil call, and `none` for a color call. -/
def BuilderCall.depthDescriptor : BuilderCall V →
    Option (RenderPassDepthStencilAttachmentDescriptor V)
  | BuilderCall.color _ _ => none
  | BuilderCall.depthStencil v f =>
      some (f (DepthStencilAttachmentDescriptorBuilder.new v)).descriptor

/-- Apply a sequence of resolve-target calls to a color leaf builder, left
to right. -/
def applyResolveTargets (b : ColorAttachmentDescriptorBuilder V)
    (ts : List (Option V)) : ColorAttachmentDescriptorBuilder V :=
  ts.foldl (fun b t => b.resolve_target t) b

theorem applyColorCalls_eq (b : Builder V)
    (cs : List (V × (ColorAttachmentDescriptorBuilder V →
      ColorAttachmentDescriptorBuilder V))) :
    applyColorCalls b cs =
      { color_attachments := b.color_attachments ++ cs.map colorCallDescriptor
        depth_stencil_attachment := b.depth_stencil_attachment } := by
  induction cs generalizing b with
  | nil => simp [applyColorCalls]
  | cons c cs ih =>
    simp only [applyColorCalls, List.foldl_cons, List.map_cons]
    rw [show (List.foldl (fun b c => Builder.color_attachment b c.1 c.2)
        (Builder.color_attachment b c.1 c.2) cs) =
        applyColorCalls (Builder.color_attachment b c.1 c.2) cs from rfl]
    rw [ih]
    simp [Builder.color_attachment, colorCallDescriptor]

theorem getLast?_or_shift {α : Type} (l : List α) :
    ∀ (a : α) (y : Option α), ((a :: l).getLast?).or y = (l.getLast?).or (some a) := by
  induction l with
  | nil => intro a y; rfl
  | cons b l ih =>
    intro a y
    rw [List.getLast?_cons_cons]
    rw [ih b y, ih b (some a)]

theorem applyCalls_depth (b : Builder V) (cs : List (BuilderCall V)) :
    (applyCalls b cs).depth_stencil_attachment =
      ((cs.filterMap BuilderCall.depthDescriptor).getLast?).or
        b.depth_stencil_attachment := by
  induction cs generalizing b with
  | nil => rfl
  | cons c cs ih =>
    cases c with
    | color v f =>
      simp only [applyCalls, List.foldl_cons]
      rw [show (List.foldl applyCall (applyCall b (BuilderCall.color v f)) cs) =
          applyCalls (applyCall b (BuilderCall.color v f)) cs from rfl]
      rw [ih]
      rfl
    | depthStencil v f =>
      simp only [applyCalls, List.foldl_cons]
      rw [show (List.foldl applyCall (applyCall b (BuilderCall.depthStencil v f)) cs) =
          applyCalls (applyCall b (BuilderCall.depthStencil v f)) cs from rfl]
      rw [ih]
      simp only [List.filterMap_cons, BuilderCall.depthDescriptor]
      rw [getLast?_or_shift]
      rfl

/-- C1: for every sequence of N ≥ 0 calls to `Builder::color_attachment`
followed by `into_inner`, the returned color-attachment list has length
exactly N, its i-th element is the descriptor produced by the i-th call
(call order preserved exactly), and `into_inner` returns the accumulated
pair unmodified. -/
theorem color_attachment_sequence_exact {V : Type}
    (cs : List (V × (ColorAttachmentDescriptorBuilder V →
      ColorAttachmentDescriptorBuilder V))) :
    ((applyColorCalls Builder.new cs).into_inner).1.length = cs.length ∧
    (∀ i : Nat, ((applyColorCalls Builder.new cs).into_inner).1[i]? =
      (cs[i]?).map colorCallDescriptor) ∧
    (applyColorCalls Builder.new cs).into_inner =
      ((applyColorCalls Builder.new cs).color_attachments,
        (applyColorCalls Builder.new cs).depth_stencil_attachment) := by
  rw [applyColorCalls_eq]
  refine ⟨by simp [Builder.into_inner, Builder.new], ?_, rfl⟩
  intro i
  simp [Builder.into_inner, Builder.new, List.getElem?_map]

/-- C2: over any sequence of root-builder calls starting from a fresh
builder, the extracted depth/stencil slot is the last depth/stencil call's
descriptor (`getLast?` is `none` when the depth/stencil setter was called
zero times, `some` of the sole call's descriptor when it was called once,
and `some` of the K-th call's descriptor when it was called K > 1 times);
the operation is total, so no error is raised. -/
theorem depth_stencil_last_write_wins {V : Type}
    (cs : List (BuilderCall V)) :
    (applyCalls Builder.new cs).depth_stencil_attachment =
      (cs.filterMap BuilderCall.depthDescriptor).getLast? := by
  rw [applyCalls_depth]
  simp [Builder.new]

/-- C3: with the optional-parameter setters the spec describes, passing the
absent value to `depth_ops` disables the depth plane (the descriptor's
`depth_ops` becomes `none`), and `stencil_ops` does the same, independently,
for the stencil plane. The setters in `src/` declare non-optional
parameters assigned to the `Option`-typed fields that `new` fills with
`Some(..)`, a type slip that makes disabling impossible; the theorem settles
the claim against the spec-modelled setters. -/
theorem ops_none_disables_plane {V : Type}
    (b : DepthStencilAttachmentDescriptorBuilder V) :
    (b.depth_ops none).descriptor.depth_ops = none ∧
    (b.stencil_ops none).descriptor.stencil_ops = none ∧
    (b.depth_ops none).descriptor.stencil_ops = b.descriptor.stencil_ops ∧
    (b.stencil_ops none).descriptor.depth_ops = b.descriptor.depth_ops :=
  ⟨rfl, rfl, rfl, rfl⟩

/-- C4: a color attachment added with no leaf-builder call at all (identity
configuration function) yields a descriptor with load = clear to
fully-transparent black, store = true, and no resolve target. -/
theorem fresh_color_attachment_defaults {V : Type} (v : V) :
    (ColorAttachmentDescriptorBuilder.new v).descriptor =
      { attachment := v
        resolve_target := none
        ops := { load := LoadOp.Clear { r := 0, g := 0, b := 0, a := 0 }
                 store := true } } ∧
    ((Builder.new).color_attachment v (fun b => b)).color_attachments =
      [{ attachment := v
         resolve_target := none
         ops := { load := LoadOp.Clear { r := 0, g := 0, b := 0, a := 0 }
                  store := true } }] :=
  ⟨rfl, rfl⟩

/-- C5: a depth/stencil attachment added with no override by the caller's
configuration function yields a descriptor with
depth_ops = Some(clear 1.0, store) and stencil_ops = Some(clear 0, store),
both present. -/
theorem fresh_depth_stencil_defaults {V : Type} (d : V) :
    ((Builder.new).depth_stencil_attachment' d (fun b => b)).depth_stencil_attachment =
      some { attachment := d
             depth_ops := some { load := LoadOp.Clear 1, store := true }
             stencil_ops := some { load := LoadOp.Clear 0, store := true } } :=
  rfl

/-- C6: one color attachment with default ops on view v, one depth/stencil
attachment on view d with depth overridden to load-existing/no-store and
stencil left default; extraction yields exactly the described pair. -/
theorem scenario_color_and_depth_override {V : Type} (v d : V) :
    (((Builder.new).color_attachment v (fun b => b)).depth_stencil_attachment' d
        (fun b => b.depth_ops (some { load := LoadOp.Load, store := false }))).into_inner =
      ([{ attachment := v
          resolve_target := none
          ops := { load := LoadOp.Clear Color.TRANSPARENT, store := true } }],
        some { attachment := d
               depth_ops := some { load := LoadOp.Load, store := false }
               stencil_ops := some { load := LoadOp.Clear 0, store := true } }) :=
  rfl

/-- C7: on the color leaf builder, `resolve_target` is last-write-wins:
setting `some x` and then `none` leaves the field `none`, and after any
sequence of `resolve_target` calls the field equals the last call's
argument. -/
theorem resolve_target_last_write_wins {V : Type}
    (b : ColorAttachmentDescriptorBuilder V) (x : V)
    (ts : List (Option V)) (t : Option V) :
    ((b.resolve_target (some x)).resolve_target none).descriptor.resolve_target = none ∧
    (applyResolveTargets b (ts ++ [t])).descriptor.resolve_target = t := by
  refine ⟨rfl, ?_⟩
  rw [applyResolveTargets, List.foldl_append]
  simp only [List.foldl_cons, List.foldl_nil,
    ColorAttachmentDescriptorBuilder.resolve_target]
  cases t <;> rfl

/-- C8: `begin` on a fresh builder assembles a pass descriptor with an empty
color-attachment list and no depth/stencil attachment, hands exactly that
descriptor to the encoder's begin-render-pass entry point (no error, nothing
forbidden), and returns the backend-provided pass handle unchanged. -/
theorem begin_empty_builder {V P : Type} (enc : CommandEncoder V P) :
    (Builder.new).begin enc =
      enc.begin_render_pass
        { color_attachments := [], depth_stencil_attachment := none } :=
  rfl

/-- C9: each root-builder add operation touches only its own field:
`color_attachment` leaves the depth/stencil slot unchanged, and the
depth/stencil setter leaves the color-attachment sequence unchanged. -/
theorem root_builder_frame {V : Type} (b : Builder V) (v w : V)
    (f : ColorAttachmentDescriptorBuilder V → ColorAttachmentDescriptorBuilder V)
    (g : DepthStencilAttachmentDescriptorBuilder V →
      DepthStencilAttachmentDescriptorBuilder V) :
    (b.color_attachment v f).depth_stencil_attachment =
      b.depth_stencil_attachment ∧
    (b.depth_stencil_attachment' w g).color_attachments =
      b.color_attachments :=
  ⟨rfl, rfl⟩

/-- C10: every leaf-builder setter modifies only its named descriptor field:
`ops` keeps the view and resolve target, `resolve_target` and
`resolve_target_handle` keep the view and ops, `depth_ops` keeps the view
and stencil ops, `stencil_ops` keeps the view and depth ops — in
particular the view fixed at construction is never changed by any setter. -/
theorem leaf_setter_frame {V : Type}
    (b : ColorAttachmentDescriptorBuilder V)
    (d : DepthStencilAttachmentDescriptorBuilder V)
    (o : Operations Color) (t : Option V)
    (p : Option (Operations Rat)) (q : Option (Operations Nat)) :
    (b.ops o).descriptor.attachment = b.descriptor.attachment ∧
    (b.ops o).descriptor.resolve_target = b.descriptor.resolve_target ∧
    (b.resolve_target t).descriptor.attachment = b.descriptor.attachment ∧
    (b.resolve_target t).descriptor.ops = b.descriptor.ops ∧
    (b.resolve_target_handle t).descriptor.attachment = b.descriptor.attachment ∧
    (b.resolve_target_handle t).descriptor.ops = b.descriptor.ops ∧
    (d.depth_ops p).descriptor.attachment = d.descriptor.attachment ∧
    (d.depth_ops p).descriptor.stencil_ops = d.descriptor.stencil_ops ∧
    (d.stencil_ops q).descriptor.attachment = d.descriptor.attachment ∧
    (d.stencil_ops q).descriptor.depth_ops = d.descriptor.depth_ops :=
  ⟨rfl, rfl, rfl, rfl, rfl, rfl, rfl, rfl, rfl, rfl⟩

end RenderPassSpec
